import Mathlib

/-!
Verification of the feeless node's per-connection protocol engine.

The Rust source has two parallel implementations of the connection engine:
the crate under src/node (Channel) and the main crate under src/src
(Controller).  Both are embedded here.  Types whose defining file is not
part of the sources (Header, Extensions, Peer, Bytes, Cookie) are modelled
from the design document and marked as such in their doc comments.

Bytes are modelled as natural numbers (a byte is a value below 256, but the
claims under study do not depend on the bound, only on equality, so plain
Nat is used).  Fallible Rust functions returning anyhow Result are
modelled with Except String.
-/

namespace Feeless

/-- A socket address, modelled opaquely: the claims only compare addresses
for equality. -/
abbrev SocketAddr := Nat

/-- Modelled from the spec: Cookie, a 32-byte random nonce (cookie.rs is
not among the sources).  Modelled as its byte list; randomness is supplied
by the caller as a parameter wherever the source calls Cookie::random. -/
abbrev Cookie := List Nat

/-- A public key, as its byte list. -/
abbrev Public := List Nat

/-- A signature, as its byte list. -/
abbrev Signature := List Nat

/-- Message type tag of a frame header.  The src/node crate names the
handshake tag NodeIdHandshake; the src/src crate names it Handshake.
One inductive serves both embeddings. -/
inductive MessageType where
  | Keepalive
  | Publish
  | ConfirmReq
  | ConfirmAck
  | BulkPull
  | BulkPush
  | FrontierReq
  | NodeIdHandshake
  | BulkPullAccount
  | TelemetryReq
  | TelemetryAck
deriving DecidableEq, Repr

/-- Modelled from the spec: the extension bit field of a header (header.rs
is not among the sources).  Low bits carry a numeric hint (block type or
item count), high bits carry the query / response flags. -/
structure Extensions where
  is_query : Bool := false
  is_response : Bool := false
  hint : Nat := 0
deriving DecidableEq, Repr

/-- Extensions::new() -/
def Extensions.new : Extensions := {}

/-- Extensions::query(): sets the query flag. -/
def Extensions.query (e : Extensions) : Extensions := { e with is_query := true }

/-- Extensions::response(): sets the response flag. -/
def Extensions.response (e : Extensions) : Extensions := { e with is_response := true }

/-- Modelled from the spec: the fixed-width frame header (header.rs is not
among the sources): network identifier, three protocol version bytes,
message type tag and the extension bit field. -/
structure Header where
  network : Nat
  version_max : Nat
  version_using : Nat
  version_min : Nat
  message_type : MessageType
  ext : Extensions
deriving DecidableEq, Repr

/-- Header::new(network, message_type, ext).  The version bytes are the
node's own advertised versions; their concrete values do not matter to the
claims, the model fixes the advertised triple at 18 (the protocol version
the source targets). -/
def Header.new (network : Nat) (mt : MessageType) (e : Extensions) : Header :=
  { network := network, version_max := 18, version_using := 18, version_min := 18,
    message_type := mt, ext := e }

/-- Header::reset(message_type, extensions): overwrites the type and
extension fields in place, keeping network and versions.  Modelled from
the spec (header.rs is not among the sources). -/
def Header.reset (h : Header) (mt : MessageType) (e : Extensions) : Header :=
  { h with message_type := mt, ext := e }

/-- Modelled from the spec: a peer address record inside a Keepalive
payload (peer.rs is not among the sources): a fixed-size slot holding an
address and a port. -/
structure Peer where
  address : List Nat
  port_bytes : List Nat
deriving DecidableEq, Repr

/-- Peer::LEN: the fixed slot size, 16 address bytes plus 2 port bytes. -/
def Peer.LEN : Nat := 18

/-- The all-zero slot, the sentinel for an absent peer. -/
def zeroSlot : List Nat := List.replicate Peer.LEN 0

/-- Modelled from the spec: Peer::deserialize decodes one fixed-size slot
(address bytes then port bytes); a slot of the wrong size is a decode
error, any slot of the right size decodes. -/
def Peer.deserialize (_ : Option Header) (data : List Nat) : Except String Peer :=
  if data.length = Peer.LEN then
    .ok { address := data.take 16, port_bytes := data.drop 16 }
  else
    .error "Peer.deserialize: wrong slot size"

/-- The value Peer.deserialize yields on a well-sized slot. -/
def peerOfSlot (data : List Nat) : Peer :=
  { address := data.take 16, port_bytes := data.drop 16 }

/-- Modelled from the spec: the byte-cursor helper over a payload
(bytes.rs is not among the sources).  The source keeps the full slice with
an offset; the model keeps the remaining suffix, which is the same cursor.
slice yields the next n bytes and fails when fewer than n remain. -/
structure Bytes where
  remaining : List Nat
deriving DecidableEq, Repr

/-- Bytes::new(data) -/
def Bytes.new (data : List Nat) : Bytes := ⟨data⟩

/-- Bytes::slice(n): the next n bytes and the advanced cursor; an error
when fewer than n bytes remain. -/
def Bytes.slice (b : Bytes) (n : Nat) : Except String (List Nat × Bytes) :=
  if n ≤ b.remaining.length then
    .ok (b.remaining.take n, ⟨b.remaining.drop n⟩)
  else
    .error "Bytes.slice: out of range"

/-- Keepalive, from src/src/node/messages/keepalive.rs: a list of decoded
peers. -/
structure Keepalive where
  peers : List Peer
deriving DecidableEq, Repr

/-- Keepalive::PEERS -/
def Keepalive.PEERS : Nat := 8

/-- The loop body of Keepalive::deserialize: n remaining slot reads over
the cursor.  A zero-filled slot is skipped; any other slot is decoded by
Peer::deserialize and appended in order; cursor exhaustion or a peer
decode failure aborts with the error. -/
def keepaliveSlots (hdr : Option Header) : Nat → Bytes → Except String (List Peer)
  | 0, _ => .ok []
  | Nat.succ n, b =>
    match b.slice Peer.LEN with
    | .error e => .error e
    | .ok (slice, rest) =>
      if slice = zeroSlot then
        keepaliveSlots hdr n rest
      else
        match Peer.deserialize hdr slice with
        | .error e => .error e
        | .ok p =>
          match keepaliveSlots hdr n rest with
          | .error e => .error e
          | .ok ps => .ok (p :: ps)

/-- Keepalive::deserialize (keepalive.rs lines 18-33): reads exactly 8
slots from a cursor over the payload; zero-filled slots are skipped, other
slots decode to peers kept in slot order.  No total-length check is made
beyond the 8 slot reads. -/
def Keepalive.deserialize (hdr : Option Header) (data : List Nat) :
    Except String Keepalive :=
  match keepaliveSlots hdr Keepalive.PEERS (Bytes.new data) with
  | .error e => .error e
  | .ok ps => .ok ⟨ps⟩

/-- Keepalive::serialize (keepalive.rs lines 14-16) is unimplemented in
the source: the body is the unimplemented macro, which panics for every
instance.  A panic produces no byte output; it is modelled as none. -/
def Keepalive.serialize (_ : Keepalive) : Option (List Nat) := none

/-- Keepalive::len (keepalive.rs lines 35-37): ignores the header. -/
def Keepalive.len (_ : Option Header) : Except String Nat :=
  .ok (Peer.LEN * Keepalive.PEERS)

/-- The portion of the State trait (src/src/node/state/mod.rs) the
connection engine touches for the claims under study: the local network
identifier and the cookie store mapping socket addresses to cookies.
The block-storage operations are not needed by any claim. -/
structure State where
  network : Nat
  cookies : SocketAddr → Option Cookie

/-- State::set_cookie(socket_addr, cookie): overwrites any prior cookie
for that address.  The trait method returns a Result; the in-memory
backend is an infallible map insert, modelled total. -/
def State.set_cookie (s : State) (addr : SocketAddr) (c : Cookie) : State :=
  { s with cookies := fun a => if a = addr then some c else s.cookies a }

/-- State::cookie_for_socket_addr(socket_addr). -/
def State.cookie_for_socket_addr (s : State) (addr : SocketAddr) : Option Cookie :=
  s.cookies addr

/-- Observable actions of a connection task, in execution order: stream
reads and writes, cookie-store accesses and signature checks. -/
inductive Event where
  | recvHeader (h : Header)
  | decodePayload (mt : MessageType)
  | recvQuery (c : Cookie)
  | recvResponse (p : Public) (s : Signature)
  | sendHeader (h : Header)
  | sendQuery (c : Cookie)
  | sendResponse (p : Public) (s : Signature)
  | setCookie (a : SocketAddr) (c : Cookie)
  | cookieLookup (a : SocketAddr)
  | verifyCheck (p : Public) (c : Cookie) (s : Signature)
deriving DecidableEq, Repr

/-- A Channel (src/node/src/channel.rs): the stream itself is modelled by
the event trace; the fields the claims mention are the shared state, the
peer address and the reusable header. -/
structure Channel where
  state : State
  peer_addr : SocketAddr
  header : Header

/-- A Controller (src/src/node/controller): same fields; its state sits
behind an async lock in the source, taken around each single access. -/
structure Controller where
  state : State
  peer_addr : SocketAddr
  header : Header

/-- Channel::send_header (channel.rs lines 96-104): copies the reusable
header (Header is Copy in the source), resets type and extensions on the
copy, and writes the copy to the stream.  The stored header field is not
assigned. -/
def Channel.send_header (ch : Channel) (mt : MessageType) (e : Extensions) :
    Channel × List Event :=
  let header := ch.header.reset mt e
  (ch, [Event.sendHeader header])

/-- Channel::send_node_id_handshake (channel.rs lines 148-161): send a
header frame with the query flag, then draw a random cookie (the cookie
parameter models Cookie::random), store it for the peer address, then
send the query payload holding that cookie.  set_cookie's Result error
path belongs to the pluggable backend and is modelled total. -/
def Channel.send_node_id_handshake (ch : Channel) (cookie : Cookie) :
    Channel × List Event :=
  let h := ch.header.reset MessageType.NodeIdHandshake Extensions.new.query
  let st := ch.state.set_cookie ch.peer_addr cookie
  ({ ch with state := st },
   [Event.sendHeader h, Event.setCookie ch.peer_addr cookie, Event.sendQuery cookie])

/-- Controller::send_handshake (controller/messages.rs lines 17-33): the
same steps as Channel::send_node_id_handshake, on the Controller type. -/
def Controller.send_handshake (c : Controller) (cookie : Cookie) :
    Controller × List Event :=
  let h := c.header.reset MessageType.NodeIdHandshake Extensions.new.query
  let st := c.state.set_cookie c.peer_addr cookie
  ({ c with state := st },
   [Event.sendHeader h, Event.setCookie c.peer_addr cookie, Event.sendQuery cookie])

/-- Channel::recv_node_id_handshake (channel.rs lines 164-204).

Query branch first: read a NodeIdHandshakeQuery payload from the stream
(streamQuery is what the stream delivers; none models a failed read),
derive a fresh keypair and sign the received cookie (the sign parameter
models Seed::random / derive / sign; ed25519 signing is infallible so the
Result error path of Private::sign is not modelled; the debug assertion is
not an error path), then reset a local copy of the reusable header to a
response header, send it, and send the response payload.

Response branch second: read a NodeIdHandshakeResponse payload, look up
the stored cookie for the peer address; with no cookie, warn and return
ok; with a cookie, verify the signature over the cookie bytes under the
supplied public key and fail with an invalid-signature error when
verification fails.

Returns the channel (its stored header and state are never assigned), the
events that occurred, and the outcome. -/
def Channel.recv_node_id_handshake (ch : Channel) (hdr : Header)
    (streamQuery : Option Cookie) (streamResp : Option (Public × Signature))
    (sign : Cookie → Public × Signature)
    (verify : Public → Cookie → Signature → Bool) :
    Channel × List Event × Except String Unit :=
  let queryPart : List Event × Except String Unit :=
    if hdr.ext.is_query then
      match streamQuery with
      | none => ([], .error "recv NodeIdHandshakeQuery: stream read failed")
      | some cookie =>
        let (pub, sig) := sign cookie
        let h := ch.header.reset MessageType.NodeIdHandshake Extensions.new.response
        ([Event.recvQuery cookie, Event.sendHeader h, Event.sendResponse pub sig],
         .ok ())
    else ([], .ok ())
  match queryPart with
  | (evs, .error e) => (ch, evs, .error e)
  | (evs, .ok ()) =>
    if hdr.ext.is_response then
      match streamResp with
      | none => (ch, evs, .error "recv NodeIdHandshakeResponse: stream read failed")
      | some (pub, sig) =>
        let evs := evs ++ [Event.recvResponse pub sig, Event.cookieLookup ch.peer_addr]
        match ch.state.cookie_for_socket_addr ch.peer_addr with
        | none => (ch, evs, .ok ())
        | some ck =>
          let evs := evs ++ [Event.verifyCheck pub ck sig]
          if verify pub ck sig then (ch, evs, .ok ())
          else (ch, evs, .error "Invalid signature in node_id_handshake response")
    else (ch, evs, .ok ())

/-- The decoded Handshake message of the src/src crate: optional query and
response payloads, present according to the header flags. -/
structure Handshake where
  query : Option Cookie
  response : Option (Public × Signature)

/-- The deferred-response tail of Controller::handle_handshake
(controller/messages.rs lines 92-99): when the query branch recorded
ShouldRespond::Yes, reset a local copy of the reusable header to a
response header, send it, and send the response payload. -/
def Controller.respondStep (c : Controller) (sr : Option (Public × Signature))
    (evs : List Event) : Controller × List Event × Except String Unit :=
  match sr with
  | none => (c, evs, .ok ())
  | some (pub, sig) =>
    let h := c.header.reset MessageType.NodeIdHandshake Extensions.new.response
    (c, evs ++ [Event.sendHeader h, Event.sendResponse pub sig], .ok ())

/-- Controller::handle_handshake (controller/messages.rs lines 35-102).

Query branch: take the query payload (the expect panic on a missing
payload is modelled as an error), sign its cookie with a fresh keypair,
self-check the fresh signature (a hard Result in this crate), and record
the response to send later.

Response branch: take the response payload, look up the stored cookie for
the peer address; with no cookie, warn and return ok early, skipping the
deferred response; with a cookie, verify and fail on a bad signature.

Only then, when the query branch recorded a response, send it. -/
def Controller.handle_handshake (c : Controller) (hdr : Header) (hs : Handshake)
    (sign : Cookie → Public × Signature)
    (verify : Public → Cookie → Signature → Bool) :
    Controller × List Event × Except String Unit :=
  let queryPart : Except String (Option (Public × Signature)) :=
    if hdr.ext.is_query then
      match hs.query with
      | none => .error "query is None but is_query is True"
      | some q =>
        let (pub, sig) := sign q
        if verify pub q sig then .ok (some (pub, sig))
        else .error "Recv node id handshake"
    else .ok none
  match queryPart with
  | .error e => (c, [], .error e)
  | .ok should_respond =>
    if hdr.ext.is_response then
      match hs.response with
      | none => (c, [], .error "response is None but is_response is True")
      | some (pub, sig) =>
        let evs := [Event.cookieLookup c.peer_addr]
        match c.state.cookie_for_socket_addr c.peer_addr with
        | none => (c, evs, .ok ())
        | some ck =>
          let evs := evs ++ [Event.verifyCheck pub ck sig]
          if verify pub ck sig then c.respondStep should_respond evs
          else (c, evs, .error "Invalid signature in node_id_handshake response")
    else c.respondStep should_respond []

/-- The local minimum supported protocol version used by header
validation.  Modelled from the spec (header.rs is not among the
sources). -/
def VERSION_MIN : Nat := 18

/-- Modelled from the spec: Header::validate(state) (header.rs is not
among the sources).  Checks the frame's network identifier against the
local configured network, then the advertised version_using against the
local minimum supported version.  Failure is fatal to the connection. -/
def Header.validate (h : Header) (s : State) : Except String Unit :=
  if h.network ≠ s.network then .error "Header network mismatch"
  else if h.version_using < VERSION_MIN then .error "Unsupported version"
  else .ok ()

/-- The dispatch arm of Channel::run (channel.rs lines 116-129): every
handled message type first reads and decodes its payload (the per-type
recv inside the handler), whose combined outcome is abstracted by the
payloadResult parameter; an unhandled tag hits the todo macro, a panic
before any payload read, modelled as an error with no decode event. -/
def dispatchMessage (hdr : Header) (payloadResult : Except String Unit) :
    List Event × Except String Unit :=
  match hdr.message_type with
  | .Keepalive => ([Event.decodePayload .Keepalive], payloadResult)
  | .Publish => ([Event.decodePayload .Publish], payloadResult)
  | .ConfirmReq => ([Event.decodePayload .ConfirmReq], payloadResult)
  | .ConfirmAck => ([Event.decodePayload .ConfirmAck], payloadResult)
  | .NodeIdHandshake => ([Event.decodePayload .NodeIdHandshake], payloadResult)
  | .TelemetryReq => ([Event.decodePayload .TelemetryReq], payloadResult)
  | _ => ([], .error "todo: unhandled message type")

/-- One iteration of the receive loop of Channel::run (channel.rs lines
111-130): receive a header, validate it against the local state - a
validation failure aborts the loop with the error before any payload
read - then dispatch on the message type. -/
def Channel.runIteration (ch : Channel) (hdr : Header)
    (payloadResult : Except String Unit) : List Event × Except String Unit :=
  let evs := [Event.recvHeader hdr]
  match hdr.validate ch.state with
  | .error e => (evs, .error e)
  | .ok _ =>
    let (devs, r) := dispatchMessage hdr payloadResult
    (evs ++ devs, r)

/-- The buffer-growth step of Channel::recv (channel.rs lines 61-64): the
buffer is resized up when the expected length exceeds it and left alone
otherwise. -/
def grownLen (bufLen expected : Nat) : Nat :=
  if expected > bufLen then expected else bufLen

/-- Channel::recv (channel.rs lines 59-76), its buffer and stream effect:
grow the buffer to the expected length if needed, then read exactly
expected bytes from the stream with read_exact - a stream with fewer
bytes is an error, not a retry - leaving the rest of the stream.  Returns
the new buffer length and, on success, the bytes read and the remaining
stream. -/
def recvStep (bufLen expected : Nat) (stream : List Nat) :
    Nat × Except String (List Nat × List Nat) :=
  let newLen := grownLen bufLen expected
  if expected ≤ stream.length then
    (newLen, .ok (stream.take expected, stream.drop expected))
  else
    (newLen, .error "Recv packet: short read")

/-- Response-frame bytes on the wire: a header frame carrying the
response flag, or a handshake response payload. -/
def Event.isResponseSend : Event → Bool
  | .sendHeader h => h.ext.is_response
  | .sendResponse _ _ => true
  | _ => false

/-- The response-verification checks of the handshake: the cookie-store
lookup and the signature verification. -/
def Event.isResponseCheck : Event → Bool
  | .cookieLookup _ => true
  | .verifyCheck _ _ _ => true
  | _ => false

/-- True when some response-send event is followed, later in the trace,
by a response-verification check: the order the spec forbids. -/
def sendThenCheck : List Event → Bool
  | [] => false
  | e :: rest =>
    if e.isResponseSend then rest.any (fun x => x.isResponseCheck)
    else sendThenCheck rest

/-- True when every query payload sent on the trace carries a cookie that
an earlier setCookie event already stored. -/
def storedBeforeSentFrom : List Event → List Cookie → Bool
  | [], _ => true
  | Event.setCookie _ c :: rest, seen => storedBeforeSentFrom rest (c :: seen)
  | Event.sendQuery c :: rest, seen =>
    seen.contains c && storedBeforeSentFrom rest seen
  | _ :: rest, seen => storedBeforeSentFrom rest seen

/-- storedBeforeSentFrom starting with nothing stored. -/
def cookieStoredBeforeQuerySent (evs : List Event) : Bool :=
  storedBeforeSentFrom evs []

/-- A well-sized slot decodes, to the slot's address and port fields. -/
lemma Peer.deserialize_of_len (hdr : Option Header) (s : List Nat)
    (h : s.length = Peer.LEN) : Peer.deserialize hdr s = .ok (peerOfSlot s) := by
  simp [Peer.deserialize, peerOfSlot, h]

/-- Reading as many slots as a slot list holds, from the concatenation of
that list, skips exactly the zero slots and decodes the rest in order. -/
lemma keepaliveSlots_join (hdr : Option Header) :
    ∀ (slots : List (List Nat)), (∀ s ∈ slots, s.length = Peer.LEN) →
    keepaliveSlots hdr slots.length (Bytes.new slots.flatten) =
      .ok ((slots.filter (fun s => decide (s ≠ zeroSlot))).map peerOfSlot)
  | [], _ => by simp [keepaliveSlots, Bytes.new]
  | s :: ss, hall => by
    have hs : s.length = Peer.LEN := hall s (by simp)
    have hss : ∀ t ∈ ss, t.length = Peer.LEN := fun t ht => hall t (by simp [ht])
    have hslice : (Bytes.new (s :: ss).flatten).slice Peer.LEN =
        .ok (s, Bytes.new ss.flatten) := by
      simp only [Bytes.new, Bytes.slice, List.flatten_cons]
      rw [if_pos]
      · rw [← hs, List.take_left, List.drop_left]
      · rw [List.length_append, ← hs]
        exact Nat.le_add_right _ _
    simp only [List.length_cons, keepaliveSlots, hslice]
    by_cases hz : s = zeroSlot
    · simp [hz, keepaliveSlots_join hdr ss hss]
    · simp [hz, Peer.deserialize_of_len hdr s hs, keepaliveSlots_join hdr ss hss]

/-- C4: an 8-slot Keepalive payload deserializes successfully to exactly
the non-zero slots, decoded in slot order; zero slots are skipped without
error. -/
theorem claim_C4_keepalive_zero_skip (hdr : Option Header)
    (slots : List (List Nat)) (hlen : slots.length = 8)
    (hall : ∀ s ∈ slots, s.length = Peer.LEN) :
    Keepalive.deserialize hdr slots.flatten =
      .ok ⟨(slots.filter (fun s => decide (s ≠ zeroSlot))).map peerOfSlot⟩ := by
  have h8 : Keepalive.PEERS = slots.length := by rw [hlen]; rfl
  simp only [Keepalive.deserialize, h8, keepaliveSlots_join hdr slots hall]

/-- Concrete slots for the C4 witness: slots 0 and 1 are real peers,
slots 2 through 7 are zero-filled. -/
def kaSlotsW : List (List Nat) :=
  [1 :: List.replicate 17 0, 2 :: List.replicate 17 0,
   zeroSlot, zeroSlot, zeroSlot, zeroSlot, zeroSlot, zeroSlot]

/-- C4 witness: the theorem evaluated on the concrete 8-slot payload. -/
theorem claim_C4_keepalive_zero_skip_witness :
    kaSlotsW.length = 8 ∧
    Keepalive.deserialize none kaSlotsW.flatten =
      .ok ⟨(kaSlotsW.filter (fun s => decide (s ≠ zeroSlot))).map peerOfSlot⟩ :=
  ⟨by decide, claim_C4_keepalive_zero_skip none kaSlotsW (by decide) (by decide)⟩

/-- Each slot read consumes a full slot, so fewer remaining bytes than
n slots' worth always aborts with an error within n reads. -/
lemma keepaliveSlots_short (hdr : Option Header) :
    ∀ (n : Nat) (b : Bytes), b.remaining.length < n * Peer.LEN →
    (keepaliveSlots hdr n b).isOk = false
  | 0, _, h => absurd h (by simp)
  | Nat.succ n, b, h => by
    by_cases hle : Peer.LEN ≤ b.remaining.length
    · have hslice : b.slice Peer.LEN =
          .ok (b.remaining.take Peer.LEN, ⟨b.remaining.drop Peer.LEN⟩) := by
        simp [Bytes.slice, hle]
      have hrest : (b.remaining.drop Peer.LEN).length < n * Peer.LEN := by
        rw [List.length_drop]
        rw [Nat.succ_mul] at h
        omega
      have ih := keepaliveSlots_short hdr n ⟨b.remaining.drop Peer.LEN⟩ hrest
      simp only [keepaliveSlots, hslice]
      by_cases hz : b.remaining.take Peer.LEN = zeroSlot
      · simpa [hz] using ih
      · simp only [hz, if_neg (by exact hz)]
        have hlen : (b.remaining.take Peer.LEN).length = Peer.LEN := by
          rw [List.length_take]
          omega
        rw [Peer.deserialize_of_len hdr _ hlen]
        revert ih
        cases keepaliveSlots hdr n ⟨b.remaining.drop Peer.LEN⟩ <;> simp [Except.isOk, Except.toBool]
    · simp only [keepaliveSlots, Bytes.slice, if_neg hle]
      rfl

/-- C5 (amended): Keepalive::deserialize rejects every input shorter than
8 slots' worth of bytes with an error, never a panic. -/
theorem claim_C5_short_input_rejected (hdr : Option Header) (data : List Nat)
    (h : data.length < Peer.LEN * Keepalive.PEERS) :
    (Keepalive.deserialize hdr data).isOk = false := by
  have hlt : data.length < Keepalive.PEERS * Peer.LEN := by
    rw [Nat.mul_comm] at h; exact h
  have := keepaliveSlots_short hdr Keepalive.PEERS (Bytes.new data) hlt
  simp only [Keepalive.deserialize]
  revert this
  cases keepaliveSlots hdr Keepalive.PEERS (Bytes.new data) <;> simp [Except.isOk, Except.toBool]

/-- C5 witness: a 10-byte input is rejected. -/
theorem claim_C5_short_input_rejected_witness :
    (List.replicate 10 0).length < Peer.LEN * Keepalive.PEERS ∧
    (Keepalive.deserialize none (List.replicate 10 0)).isOk = false :=
  ⟨by decide, claim_C5_short_input_rejected none (List.replicate 10 0) (by decide)⟩

set_option maxRecDepth 40000 in
/-- C5 counterexample: an input one byte longer than 8 slots' worth is
not rejected - Keepalive::deserialize reads the first 8 slots and ignores
the trailing byte, so a length differing from length(header) by excess
does not yield an error. -/
theorem claim_C5_counterexample :
    (List.replicate 145 0).length ≠ Peer.LEN * Keepalive.PEERS ∧
    Keepalive.deserialize none (List.replicate 145 0) = .ok ⟨[]⟩ :=
  ⟨by rw [List.length_replicate]; decide, rfl⟩

/-- C6 counterexample: Keepalive::serialize is the unimplemented macro,
which panics; on the empty Keepalive it produces no byte output at all,
so no serialization of length 8 times the slot size exists. -/
theorem claim_C6_counterexample :
    Keepalive.serialize ⟨[]⟩ = none := rfl

/-- C6 (amended): Keepalive::serialize is unimplemented in the source and
panics for every instance, producing no byte output, so the
length-consistency invariant does not hold for Keepalive. -/
theorem claim_C6_serialize_unimplemented (k : Keepalive) :
    Keepalive.serialize k = none := rfl

/-- C1: a handshake frame with the response bit set, whose signature does
not verify over the cookie stored for the peer address, makes both
handshake handlers return an error, never success. -/
theorem claim_C1_response_auth_failure
    (st : State) (addr : SocketAddr) (chHdr hdr : Header)
    (sq q? : Option Cookie) (pub : Public) (sig : Signature) (ck : Cookie)
    (sign : Cookie → Public × Signature)
    (verify : Public → Cookie → Signature → Bool)
    (hresp : hdr.ext.is_response = true)
    (hcookie : st.cookie_for_socket_addr addr = some ck)
    (hverify : verify pub ck sig = false) :
    ((Channel.mk st addr chHdr).recv_node_id_handshake hdr sq (some (pub, sig))
        sign verify).2.2.isOk = false ∧
    ((Controller.mk st addr chHdr).handle_handshake hdr ⟨q?, some (pub, sig)⟩
        sign verify).2.2.isOk = false := by
  constructor
  · simp only [Channel.recv_node_id_handshake]
    split
    · simp [Except.isOk, Except.toBool]
    · simp [hresp, hcookie, hverify, Except.isOk, Except.toBool]
  · simp only [Controller.handle_handshake]
    split
    · simp [Except.isOk, Except.toBool]
    · simp [hresp, hcookie, hverify, Except.isOk, Except.toBool]

/-- C1 witness: the theorem at a concrete bad signature. -/
theorem claim_C1_response_auth_failure_witness :
    ((Channel.mk ⟨0, fun _ => some [7]⟩ 5 (Header.new 0 .NodeIdHandshake Extensions.new)).recv_node_id_handshake
        (Header.new 0 .NodeIdHandshake Extensions.new.response) none (some ([1], [2]))
        (fun c => ([3], c)) (fun _ _ _ => false)).2.2.isOk = false ∧
    ((Controller.mk ⟨0, fun _ => some [7]⟩ 5 (Header.new 0 .NodeIdHandshake Extensions.new)).handle_handshake
        (Header.new 0 .NodeIdHandshake Extensions.new.response) ⟨none, some ([1], [2])⟩
        (fun c => ([3], c)) (fun _ _ _ => false)).2.2.isOk = false :=
  claim_C1_response_auth_failure ⟨0, fun _ => some [7]⟩ 5
    (Header.new 0 .NodeIdHandshake Extensions.new) (Header.new 0 .NodeIdHandshake Extensions.new.response)
    none none [1] [2] [7] (fun c => ([3], c)) (fun _ _ _ => false)
    rfl rfl rfl

/-- C2: a handshake frame with the response bit set, arriving when no
cookie is stored for the peer address, makes both handshake handlers
return success, provided the query branch (when the query bit is also
set) can run: the stream or message supplies the query payload and a
freshly made signature passes its own self-check. -/
theorem claim_C2_missing_cookie_is_ok
    (st : State) (addr : SocketAddr) (chHdr hdr : Header)
    (sq q? : Option Cookie) (pr : Public × Signature)
    (sign : Cookie → Public × Signature)
    (verify : Public → Cookie → Signature → Bool)
    (hresp : hdr.ext.is_response = true)
    (hcookie : st.cookie_for_socket_addr addr = none)
    (hsq : hdr.ext.is_query = true → sq.isSome)
    (hq2 : hdr.ext.is_query = true → q?.isSome)
    (hsv : ∀ c, verify (sign c).1 c (sign c).2 = true) :
    ((Channel.mk st addr chHdr).recv_node_id_handshake hdr sq (some pr)
        sign verify).2.2 = .ok () ∧
    ((Controller.mk st addr chHdr).handle_handshake hdr ⟨q?, some pr⟩
        sign verify).2.2 = .ok () := by
  obtain ⟨pub, sig⟩ := pr
  constructor
  · by_cases hq : hdr.ext.is_query
    · obtain ⟨q, hq'⟩ := Option.isSome_iff_exists.mp (hsq hq)
      simp [Channel.recv_node_id_handshake, hq, hq', hresp, hcookie]
    · simp [Channel.recv_node_id_handshake, hq, hresp, hcookie]
  · by_cases hq : hdr.ext.is_query
    · obtain ⟨q, hq'⟩ := Option.isSome_iff_exists.mp (hq2 hq)
      have := hsv q
      simp [Controller.handle_handshake, hq, hq', hresp, hcookie, this]
    · simp [Controller.handle_handshake, hq, hresp, hcookie]

/-- C2 witness: the theorem on a query-plus-response frame with no stored
cookie. -/
theorem claim_C2_missing_cookie_is_ok_witness :
    ((Channel.mk ⟨0, fun _ => none⟩ 5 (Header.new 0 .NodeIdHandshake Extensions.new)).recv_node_id_handshake
        (Header.new 0 .NodeIdHandshake Extensions.new.query.response) (some [4]) (some ([1], [2]))
        (fun c => ([3], c)) (fun _ _ _ => true)).2.2 = .ok () ∧
    ((Controller.mk ⟨0, fun _ => none⟩ 5 (Header.new 0 .NodeIdHandshake Extensions.new)).handle_handshake
        (Header.new 0 .NodeIdHandshake Extensions.new.query.response) ⟨some [4], some ([1], [2])⟩
        (fun c => ([3], c)) (fun _ _ _ => true)).2.2 = .ok () :=
  claim_C2_missing_cookie_is_ok ⟨0, fun _ => none⟩ 5
    (Header.new 0 .NodeIdHandshake Extensions.new)
    (Header.new 0 .NodeIdHandshake Extensions.new.query.response)
    (some [4]) (some [4]) ([1], [2]) (fun c => ([3], c)) (fun _ _ _ => true)
    rfl rfl (fun _ => rfl) (fun _ => rfl) (fun _ => rfl)

/-- C3 counterexample: Channel::recv_node_id_handshake, on a frame with
both the query and the response bit set, writes the response frame to the
stream inside the query branch, before the cookie lookup and signature
verification of the response branch: its trace has a response send
followed later by a verification check. -/
theorem claim_C3_counterexample :
    (Header.new 0 .NodeIdHandshake Extensions.new.query.response).ext.is_query = true ∧
    (Header.new 0 .NodeIdHandshake Extensions.new.query.response).ext.is_response = true ∧
    sendThenCheck
      ((Channel.mk ⟨0, fun _ => some [7]⟩ 5 (Header.new 0 .NodeIdHandshake Extensions.new)).recv_node_id_handshake
        (Header.new 0 .NodeIdHandshake Extensions.new.query.response)
        (some [4]) (some ([1], [2]))
        (fun c => ([3], c)) (fun _ _ _ => true)).2.1 = true := by
  refine ⟨rfl, rfl, ?_⟩
  decide

/-- C3 (amended): Controller::handle_handshake transmits the prepared
response frame only after the response-verification checks, for every
input: no response send is followed by a later check on its trace.
Channel::recv_node_id_handshake does not satisfy this ordering: it sends
the response inside the query branch, before the checks. -/
theorem claim_C3_controller_checks_before_sends
    (c : Controller) (hdr : Header) (hs : Handshake)
    (sign : Cookie → Public × Signature)
    (verify : Public → Cookie → Signature → Bool) :
    sendThenCheck (c.handle_handshake hdr hs sign verify).2.1 = false := by
  simp only [Controller.handle_handshake]
  split
  · simp [sendThenCheck]
  · split
    · split
      · simp [sendThenCheck]
      · split
        · simp [sendThenCheck, Event.isResponseSend]
        · split
          · simp [Controller.respondStep]
            split
            · simp [sendThenCheck, Event.isResponseSend]
            · simp [sendThenCheck, Event.isResponseSend, Event.isResponseCheck,
                Header.reset, Extensions.new, Extensions.response]
          · simp [sendThenCheck, Event.isResponseSend]
    · simp [Controller.respondStep]
      split
      · simp [sendThenCheck]
      · simp [sendThenCheck, Event.isResponseSend, Event.isResponseCheck,
          Header.reset, Extensions.new, Extensions.response]

/-- C7: a received header declaring a different network than the local
configuration makes the receive-loop iteration fail before any payload
decode: the outcome is an error and the trace holds no decode event. -/
theorem claim_C7_network_mismatch_rejected
    (ch : Channel) (hdr : Header) (payloadResult : Except String Unit)
    (hnet : hdr.network ≠ ch.state.network) :
    (ch.runIteration hdr payloadResult).2.isOk = false ∧
    ∀ mt, Event.decodePayload mt ∉ (ch.runIteration hdr payloadResult).1 := by
  have hval : hdr.validate ch.state = .error "Header network mismatch" := by
    simp [Header.validate, hnet]
  constructor
  · simp [Channel.runIteration, hval, Except.isOk, Except.toBool]
  · intro mt
    simp [Channel.runIteration, hval]

/-- C7 witness: the theorem on a concrete mismatched frame. -/
theorem claim_C7_network_mismatch_rejected_witness :
    ((Channel.mk ⟨0, fun _ => none⟩ 5 (Header.new 0 .NodeIdHandshake Extensions.new)).runIteration
        (Header.new 1 .Keepalive Extensions.new) (.ok ())).2.isOk = false ∧
    Event.decodePayload .Keepalive ∉
      ((Channel.mk ⟨0, fun _ => none⟩ 5 (Header.new 0 .NodeIdHandshake Extensions.new)).runIteration
        (Header.new 1 .Keepalive Extensions.new) (.ok ())).1 :=
  ⟨(claim_C7_network_mismatch_rejected _ _ _ (by decide)).1,
   (claim_C7_network_mismatch_rejected _ _ _ (by decide)).2 .Keepalive⟩

/-- C8: initiating a handshake stores the fresh cookie keyed by the peer
address and sends a header-plus-query frame whose query payload is
exactly that cookie, with the store write ordered before the query
payload send, in both implementations. -/
theorem claim_C8_handshake_initiation
    (ch : Channel) (c : Controller) (cookie : Cookie) :
    (ch.send_node_id_handshake cookie).1.state.cookie_for_socket_addr ch.peer_addr
        = some cookie ∧
    (ch.send_node_id_handshake cookie).2 =
      [Event.sendHeader (ch.header.reset .NodeIdHandshake Extensions.new.query),
       Event.setCookie ch.peer_addr cookie, Event.sendQuery cookie] ∧
    cookieStoredBeforeQuerySent (ch.send_node_id_handshake cookie).2 = true ∧
    (c.send_handshake cookie).1.state.cookie_for_socket_addr c.peer_addr
        = some cookie ∧
    (c.send_handshake cookie).2 =
      [Event.sendHeader (c.header.reset .NodeIdHandshake Extensions.new.query),
       Event.setCookie c.peer_addr cookie, Event.sendQuery cookie] ∧
    cookieStoredBeforeQuerySent (c.send_handshake cookie).2 = true := by
  refine ⟨?_, rfl, ?_, ?_, rfl, ?_⟩ <;>
    simp [Channel.send_node_id_handshake, Controller.send_handshake,
      State.set_cookie, State.cookie_for_socket_addr,
      cookieStoredBeforeQuerySent, storedBeforeSentFrom, List.contains]

/-- The buffer-growth step never shrinks the buffer. -/
lemma le_grownLen (b e : Nat) : b ≤ grownLen b e := by
  unfold grownLen
  split <;> omega

/-- Across any sequence of expected lengths, the folded buffer length
never drops below its starting value. -/
lemma le_foldl_grownLen : ∀ (es : List Nat) (b : Nat), b ≤ List.foldl grownLen b es
  | [], _ => Nat.le_refl _
  | e :: es, b =>
    Nat.le_trans (le_grownLen b e) (le_foldl_grownLen es (grownLen b e))

/-- C9: the receive buffer never shrinks across any sequence of recv
calls; one recv grows it to the expected length exactly when that exceeds
the current length and leaves it unchanged otherwise; and a successful
recv reads exactly the expected number of bytes from the stream. -/
theorem claim_C9_buffer_discipline
    (es : List Nat) (b e : Nat) (stream taken rest : List Nat)
    (h : (recvStep b e stream).2 = .ok (taken, rest)) :
    b ≤ List.foldl grownLen b es ∧
    (recvStep b e stream).1 = (if e > b then e else b) ∧
    taken.length = e ∧ rest.length + e = stream.length := by
  refine ⟨le_foldl_grownLen es b, ?_, ?_⟩
  · unfold recvStep
    split <;> rfl
  revert h
  unfold recvStep
  split
  · intro h
    rename_i hle
    simp only [Except.ok.injEq, Prod.mk.injEq] at h
    obtain ⟨ht, hr⟩ := h
    subst ht hr
    constructor
    · simp [List.length_take]
      omega
    · simp [List.length_drop]
      omega
  · intro h
    exact absurd h (by simp)

/-- C9 witness: the theorem on a concrete recv. -/
theorem claim_C9_buffer_discipline_witness :
    (recvStep 0 4 (List.replicate 6 9)).2 = .ok ([9, 9, 9, 9], [9, 9]) ∧
    (0 ≤ List.foldl grownLen 0 [5, 3] ∧
     (recvStep 0 4 (List.replicate 6 9)).1 = (if 4 > 0 then 4 else 0) ∧
     [9, 9, 9, 9].length = 4 ∧ [9, 9].length + 4 = (List.replicate 6 9).length) :=
  ⟨rfl, claim_C9_buffer_discipline [5, 3] 0 4 (List.replicate 6 9) _ _ rfl⟩

/-- Controller::respondStep returns the controller it was given. -/
lemma Controller.respondStep_fst (c : Controller) (sr : Option (Public × Signature))
    (evs : List Event) : (c.respondStep sr evs).1 = c := by
  unfold Controller.respondStep
  split <;> rfl

/-- C10: sending a framed header, and running either handshake handler,
leaves the stored reusable header field of the connection unchanged:
Header is Copy in the source and reset is applied to a local copy. -/
theorem claim_C10_header_field_preserved
    (ch : Channel) (c : Controller) (mt : MessageType) (e : Extensions)
    (hdr : Header) (sq : Option Cookie) (sr : Option (Public × Signature))
    (hs : Handshake) (sign : Cookie → Public × Signature)
    (verify : Public → Cookie → Signature → Bool) :
    (ch.send_header mt e).1.header = ch.header ∧
    (ch.recv_node_id_handshake hdr sq sr sign verify).1.header = ch.header ∧
    (c.handle_handshake hdr hs sign verify).1.header = c.header := by
  refine ⟨rfl, ?_, ?_⟩
  · simp only [Channel.recv_node_id_handshake]
    split
    · rfl
    · split <;> [skip; rfl]
      split
      · rfl
      · split
        · rfl
        · split <;> rfl
  · simp only [Controller.handle_handshake]
    split
    · rfl
    · split
      · split
        · rfl
        · split
          · rfl
          · split
            · rw [Controller.respondStep_fst]
            · rfl
      · rw [Controller.respondStep_fst]

end Feeless
